import Mathlib

/-!
Verification development for the gala watershed pipeline
(src/gala/watershed.py, function create_labels and its helpers).

The boundary-probability volume is a 3-D array in (z, x, y) order; we
embed volumes as a shape together with a flat data list in C (raster)
order, indexed by (z * d1 + x) * d2 + y, matching numpy's layout for a
(d0, d1, d2) array.  Boundary values are embedded as integers (only
their ordering is used by the pipeline).  Label volumes hold naturals,
with 0 meaning unlabeled/background.

The connected-component labeler (scipy.ndimage.label), the small-seed
filter (morpho.remove_small_connected_components) and the watershed
flood (skmorph.watershed) are not part of the shown sources; they are
modelled from the spec (sections 4.1, 4.2, 4.4) as executable,
fuel-bounded functions.
-/

structure Shape where
  d0 : Nat
  d1 : Nat
  d2 : Nat
deriving DecidableEq, Repr

def Shape.size (s : Shape) : Nat := s.d0 * s.d1 * s.d2

structure Vol (α : Type) where
  shape : Shape
  data : List α
deriving DecidableEq, Repr

/-- Read a label list at a flat index, 0 outside the list. -/
def lget (l : List Nat) (i : Nat) : Nat := l.getD i 0

/-- Read a boundary-value list at a flat index, 0 outside the list. -/
def lgetI (l : List Int) (i : Nat) : Int := l.getD i 0

/-- Flat index of voxel (z, x, y) in C order for shape s. -/
def fidx (s : Shape) (z x y : Nat) : Nat := (z * s.d1 + x) * s.d2 + y

/-- Voxel read on a label volume. -/
def volGet (v : Vol Nat) (z x y : Nat) : Nat := lget v.data (fidx v.shape z x y)

/-- All voxel coordinates of a shape in raster (C) order. -/
def coordsList (s : Shape) : List (Nat × Nat × Nat) :=
  (List.range s.size).map (fun i =>
    (i / (s.d1 * s.d2), (i % (s.d1 * s.d2)) / s.d2, i % s.d2))

/-- The in-bounds 6-connected (face-adjacent) neighbors of (z, x, y). -/
def nbrs (s : Shape) (z x y : Nat) : List (Nat × Nat × Nat) :=
  (if 1 ≤ z then [(z - 1, x, y)] else []) ++
  (if z + 1 < s.d0 then [(z + 1, x, y)] else []) ++
  (if 1 ≤ x then [(z, x - 1, y)] else []) ++
  (if x + 1 < s.d1 then [(z, x + 1, y)] else []) ++
  (if 1 ≤ y then [(z, x, y - 1)] else []) ++
  (if y + 1 < s.d2 then [(z, x, y + 1)] else [])

/-- The boolean mask boundary <= seed_val (watershed.py line 90 and 103). -/
def bmask (b : Vol Int) (t : Int) : List Bool :=
  b.data.map (fun v => decide (v ≤ t))

def floodFuel (s : Shape) : Nat := 7 * s.size + 7

/-- Modelled from the spec: breadth-first flood assigning label lab to the
connected component (6-connectivity) of mask-true, unlabeled voxels
reachable from the queued coordinates; part of ConnectedComponentLabeler
(spec section 4.1), standing in for scipy.ndimage.label which is not in
the shown sources. -/
def flood (s : Shape) (mask : List Bool) (lab : Nat) :
    Nat → List Nat → List (Nat × Nat × Nat) → List Nat
  | 0, labels, _ => labels
  | _ + 1, labels, [] => labels
  | fuel + 1, labels, c :: rest =>
    if mask.getD (fidx s c.1 c.2.1 c.2.2) false = true ∧
       lget labels (fidx s c.1 c.2.1 c.2.2) = 0 then
      flood s mask lab fuel
        (labels.set (fidx s c.1 c.2.1 c.2.2) lab)
        (rest ++ nbrs s c.1 c.2.1 c.2.2)
    else
      flood s mask lab fuel labels rest

/-- Modelled from the spec: raster scan assigning the next fresh label to
each not-yet-labeled mask-true voxel and flooding its component
(ConnectedComponentLabeler, spec section 4.1). -/
def cclScan (s : Shape) (mask : List Bool) :
    List (Nat × Nat × Nat) → List Nat → Nat → List Nat
  | [], labels, _ => labels
  | c :: cs, labels, next =>
    if mask.getD (fidx s c.1 c.2.1 c.2.2) false = true ∧
       lget labels (fidx s c.1 c.2.1 c.2.2) = 0 then
      cclScan s mask cs
        (flood s mask next (floodFuel s) labels [c]) (next + 1)
    else
      cclScan s mask cs labels next

/-- Modelled from the spec: connected-component labeling of a boolean mask,
6-connectivity, labels assigned in raster order of first encounter
(spec section 4.1; stands in for scipy.ndimage.label, watershed.py
lines 90 and 103). -/
def ccl (s : Shape) (mask : List Bool) : List Nat :=
  cclScan s mask (coordsList s) (List.replicate s.size 0) 1

/-- Modelled from the spec: SmallComponentFilter (spec section 4.2), the
model of morpho.remove_small_connected_components (watershed.py lines 94
and 105, module morpho not in the shown sources): zero every voxel whose
positive label has a total voxel count strictly below the threshold. -/
def removeSmall (v : Vol Nat) (t : Int) : Vol Nat :=
  ⟨v.shape, v.data.map (fun lab =>
    if lab ≠ 0 ∧ (v.data.count lab : Int) < t then 0 else lab)⟩

/-- SeedGenerator (watershed.py lines 90-94 and 103-105): threshold mask,
connected-component labeling, then small-seed removal when seed_size > 0. -/
def seedGen (b : Vol Int) (seed_val seed_size : Int) : Vol Nat :=
  if 0 < seed_size then
    removeSmall ⟨b.shape, ccl b.shape (bmask b seed_val)⟩ seed_size
  else
    ⟨b.shape, ccl b.shape (bmask b seed_val)⟩

structure Entry where
  prio : Int
  seq : Nat
  pos : Nat
  cz : Nat
  cx : Nat
  cy : Nat
  lab : Nat
deriving DecidableEq, Repr

/-- Priority order on queue entries: smaller boundary value first, ties
broken by insertion sequence (first enqueued wins, spec section 4.4). -/
def entryBefore (a b : Entry) : Bool :=
  decide (a.prio < b.prio) || (decide (a.prio = b.prio) && decide (a.seq < b.seq))

/-- Remove the minimum entry (by entryBefore) from the queue. -/
def popMin : List Entry → Option (Entry × List Entry)
  | [] => none
  | e :: es =>
    match popMin es with
    | none => some (e, [])
    | some (m, rest) =>
      if entryBefore m e then some (m, e :: rest) else some (e, es)

/-- Assign consecutive insertion-sequence numbers starting at start. -/
def number (start : Nat) : List Entry → List Entry
  | [] => []
  | e :: es => { e with seq := start } :: number (start + 1) es

/-- Concatenate the lists produced for each element. -/
def collect {α β : Type} (f : α → List β) : List α → List β
  | [] => []
  | a :: as => f a ++ collect f as

/-- Candidate queue entries for the unlabeled neighbors of (z, x, y),
each carrying its own boundary value as priority and the label lab
(spec section 4.4); seq fields are filled in by number. -/
def rawNbrs (b : Vol Int) (labels : List Nat) (z x y : Nat) (lab : Nat) : List Entry :=
  (nbrs b.shape z x y).filterMap (fun c =>
    if lget labels (fidx b.shape c.1 c.2.1 c.2.2) = 0 then
      some ⟨lgetI b.data (fidx b.shape c.1 c.2.1 c.2.2), 0,
            fidx b.shape c.1 c.2.1 c.2.2, c.1, c.2.1, c.2.2, lab⟩
    else none)

/-- Initial queue contents: for every seeded voxel, its unlabeled
neighbors with the seed's label (spec section 4.4). -/
def rawInit (b : Vol Int) (seeds : List Nat) : List Entry :=
  collect (fun c =>
    if lget seeds (fidx b.shape c.1 c.2.1 c.2.2) ≠ 0 then
      rawNbrs b seeds c.1 c.2.1 c.2.2 (lget seeds (fidx b.shape c.1 c.2.1 c.2.2))
    else []) (coordsList b.shape)

/-- Modelled from the spec: the priority-flood loop of WatershedEngine
(spec section 4.4, standing in for skmorph.watershed at watershed.py
line 107): pop the minimum entry; if its voxel is still unlabeled,
assign the carried label and enqueue the voxel's unlabeled neighbors;
otherwise discard the entry. -/
def wshedLoop (b : Vol Int) : Nat → List Nat → List Entry → Nat → List Nat
  | 0, labels, _, _ => labels
  | fuel + 1, labels, q, seq =>
    match popMin q with
    | none => labels
    | some (e, rest) =>
      if lget labels e.pos = 0 then
        wshedLoop b fuel (labels.set e.pos e.lab)
          (rest ++ number seq (rawNbrs b (labels.set e.pos e.lab) e.cz e.cx e.cy e.lab))
          (seq + (rawNbrs b (labels.set e.pos e.lab) e.cz e.cx e.cy e.lab).length)
      else
        wshedLoop b fuel labels rest seq

def wshedFuel (s : Shape) : Nat := 12 * s.size + 12

/-- Modelled from the spec: WatershedEngine (spec section 4.4). The output
starts as the seed volume and is grown by the priority flood. -/
def watershed (b : Vol Int) (seeds : Vol Nat) : Vol Nat :=
  ⟨b.shape,
   wshedLoop b (wshedFuel b.shape) seeds.data
     (number 0 (rawInit b seeds.data)) (rawInit b seeds.data).length⟩

/-- Shape of the Margin-crop (numpy slice [m:-m] on every axis,
watershed.py line 102): each dimension shrinks by 2*m, clamped at 0. -/
def cropShape (s : Shape) (m : Nat) : Shape :=
  ⟨s.d0 - 2 * m, s.d1 - 2 * m, s.d2 - 2 * m⟩

/-- Margin-crop of a boundary volume (watershed.py line 102). -/
def cropB (b : Vol Int) (m : Nat) : Vol Int :=
  ⟨cropShape b.shape m,
   (List.range (cropShape b.shape m).size).map (fun i =>
     lgetI b.data (fidx b.shape
       (i / ((cropShape b.shape m).d1 * (cropShape b.shape m).d2) + m)
       ((i % ((cropShape b.shape m).d1 * (cropShape b.shape m).d2)) / (cropShape b.shape m).d2 + m)
       (i % (cropShape b.shape m).d2 + m)))⟩

/-- Margin-crop of a label volume (the slice the code deliberately does
NOT use for the watershed seeds; needed to state claim C1). -/
def cropN (v : Vol Nat) (m : Nat) : Vol Nat :=
  ⟨cropShape v.shape m,
   (List.range (cropShape v.shape m).size).map (fun i =>
     lget v.data (fidx v.shape
       (i / ((cropShape v.shape m).d1 * (cropShape v.shape m).d2) + m)
       ((i % ((cropShape v.shape m).d1 * (cropShape v.shape m).d2)) / (cropShape v.shape m).d2 + m)
       (i % (cropShape v.shape m).d2 + m)))⟩

/-- Embedding of watershed.py lines 111-115: a zero-initialized full-size
volume whose interior region at offset m along every axis holds the
cropped result. -/
def uncrop (full : Shape) (svc : Vol Nat) (m : Nat) : Vol Nat :=
  ⟨full,
   (List.range full.size).map (fun i =>
     if m ≤ i / (full.d1 * full.d2) ∧ i / (full.d1 * full.d2) + m < full.d0 ∧
        m ≤ (i % (full.d1 * full.d2)) / full.d2 ∧
        (i % (full.d1 * full.d2)) / full.d2 + m < full.d1 ∧
        m ≤ i % full.d2 ∧ i % full.d2 + m < full.d2 then
       lget svc.data
         (((i / (full.d1 * full.d2) - m) * (full.d1 - 2 * m) +
           ((i % (full.d1 * full.d2)) / full.d2 - m)) * (full.d2 - 2 * m) +
          (i % full.d2 - m))
     else 0)⟩

/-- The three configuration fields consumed by the watershed pipeline
(spec section 6): seed_val, seed_size, border_size. -/
structure WshedOptions where
  seed_val : Int
  seed_size : Int
  border_size : Nat

/-- The boundary/seed pair actually passed to the watershed at
watershed.py line 107: when border_size > 0, both come from the cropped
boundary volume (lines 101-105); otherwise from the full volume
(lines 90-100). -/
def watershedInputs (o : WshedOptions) (b : Vol Int) : Vol Int × Vol Nat :=
  if 0 < o.border_size then
    (cropB b o.border_size,
     seedGen (cropB b o.border_size) o.seed_val o.seed_size)
  else
    (b, seedGen b o.seed_val o.seed_size)

/-- Embedding of the supervoxel computation of create_labels
(watershed.py lines 89-115): seed generation, optional crop/re-seed,
watershed, and compositing back into a zero full-size volume. -/
def createLabels (o : WshedOptions) (b : Vol Int) : Vol Nat :=
  if 0 < o.border_size then
    uncrop b.shape (watershed (watershedInputs o b).1 (watershedInputs o b).2) o.border_size
  else
    watershed (watershedInputs o b).1 (watershedInputs o b).2

/-- The set of distinct positive labels occurring in a label volume. -/
def distinctLabels (v : Vol Nat) : Finset Nat :=
  (v.data.filter (fun x => x != 0)).toFinset

def distinctCount (v : Vol Nat) : Nat := (distinctLabels v).card

/-!
Name-resolution model of the body of create_labels (watershed.py lines
55-119).  Python resolves each name read at runtime against the local
scope (parameters and prior assignments), the module globals (imports
and top-level defs of watershed.py) and the builtins; a read of a name
bound in none of them raises NameError at that statement.  The body is
embedded statement by statement, recording for each statement the
global or local names it reads, in evaluation order, and the local name
it assigns (if any).  Branch outcomes of if-statements are supplied by
an arbitrary oracle, so the result below holds on every control path.
-/

inductive PyErr where
  | nameError (n : String)
  | raised
deriving DecidableEq, Repr

inductive PyStmt where
  | assign (target : String) (reads : List String)
  | expr (reads : List String)
  | raiseStmt (reads : List String)
  | ifStmt (reads : List String) (body : List PyStmt)
  | ret (reads : List String)

/-- First name of the list not bound in the environment, if any. -/
def firstUnbound (env : List String) : List String → Option String
  | [] => none
  | n :: ns => if env.contains n then firstUnbound env ns else some n

/-- Run a statement list: each statement first resolves the names it
reads (NameError on the first unbound one), then binds its target if it
is an assignment.  The oracle decides if-branches; fuel bounds the
nesting (ample fuel is supplied at every use; exhaustion returns ok and
is never reached on the concrete body below). -/
def runStmts (oracle : Nat → Bool) :
    Nat → List PyStmt → List String → Nat → Except PyErr (List String × Nat)
  | 0, _, env, k => .ok (env, k)
  | _ + 1, [], env, k => .ok (env, k)
  | fuel + 1, s :: rest, env, k =>
    match s with
    | .assign t reads =>
      match firstUnbound env reads with
      | some n => .error (.nameError n)
      | none => runStmts oracle fuel rest (t :: env) k
    | .expr reads =>
      match firstUnbound env reads with
      | some n => .error (.nameError n)
      | none => runStmts oracle fuel rest env k
    | .raiseStmt reads =>
      match firstUnbound env reads with
      | some n => .error (.nameError n)
      | none => .error .raised
    | .ifStmt reads body =>
      match firstUnbound env reads with
      | some n => .error (.nameError n)
      | none =>
        if oracle k then
          match runStmts oracle fuel body env (k + 1) with
          | .error e => .error e
          | .ok (envB, kB) => runStmts oracle fuel rest envB kB
        else
          runStmts oracle fuel rest env (k + 1)
    | .ret reads =>
      match firstUnbound env reads with
      | some n => .error (.nameError n)
      | none => .ok (env, k)

/-- Module-level names of watershed.py: its imports (lines 1-10) and its
top-level function definitions, plus the Python builtins the body uses. -/
def moduleEnv : List String :=
  ["os", "sys", "glob", "h5py", "numpy", "json", "shutil", "traceback",
   "imio", "option_manager", "app_logger", "session_manager", "util",
   "ilp_file_verify", "temp_dir_verify", "create_watershed_options",
   "create_labels", "gen_watershed", "entrypoint",
   "str", "Exception", "True", "False", "None"]

/-- Names visible at entry to create_labels: its two parameters plus the
module environment. -/
def createLabelsEnv : List String := "options" :: "master_logger" :: moduleEnv

/-- The body of create_labels (watershed.py lines 66-119), each statement
listing the names it reads in evaluation order. -/
def createLabelsBody : List PyStmt :=
  [ .expr ["master_logger"],
    .ifStmt ["os", "prediction_file"] [ .raiseStmt ["Exception", "prediction_file"] ],
    .assign "prediction" ["imio", "prediction_file", "PREDICTIONS_HDF5_GROUP"],
    .expr ["master_logger"],
    .assign "prediction" ["prediction"],
    .assign "boundary" ["grab_boundary", "prediction", "options", "master_logger"],
    .expr ["master_logger", "str", "boundary"],
    .expr ["master_logger", "str", "options"],
    .assign "seeds" ["label", "boundary", "options"],
    .ifStmt ["options"]
      [ .expr ["master_logger"],
        .assign "seeds" ["morpho", "seeds", "options"],
        .expr ["master_logger"] ],
    .expr ["master_logger"],
    .assign "boundary_cropped" ["boundary"],
    .assign "seeds_cropped" ["seeds"],
    .ifStmt ["options"]
      [ .assign "boundary_cropped" ["boundary", "options"],
        .assign "seeds_cropped" ["label", "boundary_cropped", "options"],
        .ifStmt ["options"]
          [ .assign "seeds_cropped" ["morpho", "seeds_cropped", "options"] ] ],
    .assign "supervoxels_cropped" ["skmorph", "boundary_cropped", "seeds_cropped"],
    .assign "supervoxels" ["supervoxels_cropped"],
    .ifStmt ["options"]
      [ .assign "supervoxels" ["seeds"],
        .expr ["supervoxels", "supervoxels_cropped"],
        .expr ["supervoxels"],
        .expr ["supervoxels", "options", "supervoxels_cropped"] ],
    .expr ["master_logger"],
    .ret ["supervoxels", "prediction"] ]

/-- The six names create_labels reads that are bound nowhere. -/
def missingNames : List String :=
  ["prediction_file", "PREDICTIONS_HDF5_GROUP", "grab_boundary",
   "label", "morpho", "skmorph"]

/-!
Concrete example volumes used by counterexamples and witnesses.
-/

/-- A 3x3x3 boundary volume whose mask (value <= 0) holds exactly at the
corner (0,0,0), inside the margin, and at the center (1,1,1): the corner
component takes full-volume label 1, so the center takes full-volume
label 2, but a fresh labeling of the 1x1x1 crop gives the center label 1. -/
def bFull : Vol Int :=
  ⟨⟨3, 3, 3⟩,
   [0, 1, 1, 1, 1, 1, 1, 1, 1,
    1, 1, 1, 1, 0, 1, 1, 1, 1,
    1, 1, 1, 1, 1, 1, 1, 1, 1]⟩

def oC1 : WshedOptions := ⟨0, 0, 1⟩

/-- Margin 1 on a 2x2x2 volume: every cropped dimension is 0. -/
def oC3 : WshedOptions := ⟨0, 0, 1⟩

def bC3 : Vol Int := ⟨⟨2, 2, 2⟩, List.replicate 8 0⟩

def oW4 : WshedOptions := ⟨0, 0, 1⟩

def bW4 : Vol Int := ⟨⟨3, 3, 3⟩, List.replicate 27 0⟩

def bW6 : Vol Int := ⟨⟨1, 1, 2⟩, [5, 5]⟩

def sW6 : Vol Nat := ⟨⟨1, 1, 2⟩, [0, 0]⟩

def bW7 : Vol Int := ⟨⟨1, 1, 2⟩, [0, 1]⟩

def sW7 : Vol Nat := ⟨⟨1, 1, 2⟩, [1, 0]⟩

def vW9 : Vol Nat := ⟨⟨1, 1, 3⟩, [1, 1, 2]⟩

/-!
Helper lemmas.
-/

theorem lget_map (f : Nat → Nat) :
    ∀ (l : List Nat) (i : Nat), i < l.length → lget (l.map f) i = f (lget l i)
  | [], i, h => absurd h (by simp)
  | a :: l, 0, _ => rfl
  | a :: l, i + 1, h => lget_map f l i (by simpa using h)

theorem lget_range_map (n : Nat) (f : Nat → Nat) (i : Nat) (h : i < n) :
    lget ((List.range n).map f) i = f i := by
  rw [lget, List.getD_eq_getElem?_getD, List.getElem?_map, List.getElem?_range h]
  rfl

theorem lget_set_ne : ∀ (l : List Nat) (p i v : Nat), i ≠ p →
    lget (l.set p v) i = lget l i
  | [], _, _, _, _ => rfl
  | a :: l, 0, 0, v, h => absurd rfl h
  | a :: l, 0, i + 1, v, _ => rfl
  | a :: l, p + 1, 0, v, _ => rfl
  | a :: l, p + 1, i + 1, v, h =>
      lget_set_ne l p i v (fun hh => h (by rw [hh]))

theorem lget_zero_of_all : ∀ (l : List Nat), (∀ v ∈ l, v = 0) → ∀ i, lget l i = 0
  | [], _, _ => rfl
  | a :: l, h, 0 => h a (List.mem_cons_self a l)
  | a :: l, h, i + 1 =>
      lget_zero_of_all l (fun v hv => h v (List.mem_cons_of_mem a hv)) i

theorem collect_eq_nil {α β : Type} (f : α → List β) :
    ∀ (l : List α), (∀ a ∈ l, f a = []) → collect f l = []
  | [], _ => rfl
  | a :: l, h => by
      rw [collect, h a (List.mem_cons_self a l), List.nil_append]
      exact collect_eq_nil f l (fun x hx => h x (List.mem_cons_of_mem a hx))

theorem flood_length (s : Shape) (mask : List Bool) (lab : Nat) :
    ∀ (fuel : Nat) (labels : List Nat) (q : List (Nat × Nat × Nat)),
      (flood s mask lab fuel labels q).length = labels.length
  | 0, labels, _ => rfl
  | _ + 1, labels, [] => rfl
  | fuel + 1, labels, c :: rest => by
      rw [flood]
      split
      · rw [flood_length s mask lab fuel, List.length_set]
      · exact flood_length s mask lab fuel labels rest

theorem cclScan_length (s : Shape) (mask : List Bool) :
    ∀ (cs : List (Nat × Nat × Nat)) (labels : List Nat) (next : Nat),
      (cclScan s mask cs labels next).length = labels.length
  | [], _, _ => rfl
  | c :: cs, labels, next => by
      rw [cclScan]
      split
      · rw [cclScan_length s mask cs, flood_length]
      · exact cclScan_length s mask cs labels next

theorem ccl_length (s : Shape) (mask : List Bool) : (ccl s mask).length = s.size := by
  rw [ccl, cclScan_length, List.length_replicate]

theorem seedGen_shape (b : Vol Int) (sv ss : Int) : (seedGen b sv ss).shape = b.shape := by
  rw [seedGen]; split <;> rfl

theorem seedGen_data_length (b : Vol Int) (sv ss : Int) :
    (seedGen b sv ss).data.length = b.shape.size := by
  rw [seedGen]; split
  · show ((ccl b.shape (bmask b sv)).map _).length = _
    rw [List.length_map, ccl_length]
  · exact ccl_length _ _

theorem wshedLoop_length (b : Vol Int) :
    ∀ (fuel : Nat) (labels : List Nat) (q : List Entry) (seq : Nat),
      (wshedLoop b fuel labels q seq).length = labels.length
  | 0, _, _, _ => rfl
  | fuel + 1, labels, q, seq => by
      rw [wshedLoop]
      cases hpm : popMin q with
      | none => rfl
      | some pr =>
        obtain ⟨e, rest⟩ := pr
        dsimp only
        split
        · rw [wshedLoop_length b fuel, List.length_set]
        · exact wshedLoop_length b fuel labels rest seq

theorem watershed_shape (b : Vol Int) (seeds : Vol Nat) :
    (watershed b seeds).shape = b.shape := rfl

theorem watershed_data_length (b : Vol Int) (seeds : Vol Nat) :
    (watershed b seeds).data.length = seeds.data.length :=
  wshedLoop_length b _ _ _ _

theorem fidx_lt_size {s : Shape} {z x y : Nat}
    (hz : z < s.d0) (hx : x < s.d1) (hy : y < s.d2) : fidx s z x y < s.size := by
  have h1 : z * s.d1 + x < s.d0 * s.d1 := by
    calc z * s.d1 + x < z * s.d1 + s.d1 := by omega
      _ = (z + 1) * s.d1 := by ring
      _ ≤ s.d0 * s.d1 := Nat.mul_le_mul_right s.d1 (by omega)
  calc fidx s z x y = (z * s.d1 + x) * s.d2 + y := rfl
    _ < (z * s.d1 + x) * s.d2 + s.d2 := by omega
    _ = (z * s.d1 + x + 1) * s.d2 := by ring
    _ ≤ (s.d0 * s.d1) * s.d2 := Nat.mul_le_mul_right s.d2 (by omega)
    _ = s.size := rfl

theorem fidx_w_lt {s : Shape} {x y : Nat} (hx : x < s.d1) (hy : y < s.d2) :
    x * s.d2 + y < s.d1 * s.d2 := by
  calc x * s.d2 + y < x * s.d2 + s.d2 := by omega
    _ = (x + 1) * s.d2 := by ring
    _ ≤ s.d1 * s.d2 := Nat.mul_le_mul_right s.d2 (by omega)

theorem unflat_z {s : Shape} (z : Nat) {x y : Nat} (hx : x < s.d1) (hy : y < s.d2) :
    fidx s z x y / (s.d1 * s.d2) = z := by
  have hd : 0 < s.d1 * s.d2 := Nat.mul_pos (by omega) (by omega)
  have he : fidx s z x y = x * s.d2 + y + s.d1 * s.d2 * z := by rw [fidx]; ring
  rw [he, Nat.add_mul_div_left _ _ hd, Nat.div_eq_of_lt (fidx_w_lt hx hy), Nat.zero_add]

theorem unflat_x {s : Shape} (z : Nat) {x y : Nat} (hx : x < s.d1) (hy : y < s.d2) :
    (fidx s z x y % (s.d1 * s.d2)) / s.d2 = x := by
  have hd2 : 0 < s.d2 := by omega
  have he : fidx s z x y = x * s.d2 + y + z * (s.d1 * s.d2) := by rw [fidx]; ring
  rw [he, Nat.add_mul_mod_self_right, Nat.mod_eq_of_lt (fidx_w_lt hx hy)]
  have he2 : x * s.d2 + y = y + s.d2 * x := by ring
  rw [he2, Nat.add_mul_div_left _ _ hd2, Nat.div_eq_of_lt hy, Nat.zero_add]

theorem unflat_y {s : Shape} (z x : Nat) {y : Nat} (hy : y < s.d2) :
    fidx s z x y % s.d2 = y := by
  have he : fidx s z x y = y + (z * s.d1 + x) * s.d2 := by rw [fidx]; ring
  rw [he, Nat.add_mul_mod_self_right, Nat.mod_eq_of_lt hy]

/-!
Claim theorems.
-/

/-- Claim C2: for every input options record (hence for every branch
oracle), running the body of create_labels against the names actually
bound in watershed.py stops with NameError on prediction_file at the
second statement, before any value is returned; moreover none of the six
names prediction_file, PREDICTIONS_HDF5_GROUP, grab_boundary, label,
morpho, skmorph is bound in the function's environment (parameters,
module globals, builtins). -/
theorem c2_name_error :
    (∀ oracle : Nat → Bool,
        runStmts oracle 100 createLabelsBody createLabelsEnv 0 =
          Except.error (PyErr.nameError "prediction_file")) ∧
    missingNames.all (fun n => !(createLabelsEnv.contains n)) = true :=
  ⟨fun _ => rfl, rfl⟩

/-- Claim C1: when border_size > 0, the seed volume handed to the
watershed is SeedGenerator run afresh on the cropped boundary volume;
and on the concrete boundary volume bFull with Margin 1 that fresh seed
volume differs from the Margin-crop of the seed volume computed on the
full boundary volume. -/
theorem c1_fresh_seeds :
    (∀ (o : WshedOptions) (b : Vol Int), 0 < o.border_size →
        (watershedInputs o b).2 =
          seedGen (cropB b o.border_size) o.seed_val o.seed_size) ∧
    seedGen (cropB bFull 1) 0 0 ≠ cropN (seedGen bFull 0 0) 1 := by
  constructor
  · intro o b h
    rw [watershedInputs, if_pos h]
  · decide

/-- Witness for claim C1 at the concrete options oC1 and volume bFull. -/
theorem c1_fresh_seeds_witness :
    (watershedInputs oC1 bFull).2 = seedGen (cropB bFull 1) 0 0 :=
  c1_fresh_seeds.1 oC1 bFull (by decide)

/-- Claim C3 counterexample: with Margin 1 on a 2x2x2 volume every
cropped dimension is 0, yet the pipeline signals nothing and returns the
full-size all-zero supervoxel volume. -/
theorem c3_cex :
    0 < oC3.border_size ∧ bC3.shape.d0 ≤ 2 * oC3.border_size ∧
    createLabels oC3 bC3 = ⟨⟨2, 2, 2⟩, [0, 0, 0, 0, 0, 0, 0, 0]⟩ := by
  decide

/-- Claim C3 as amended: when Margin > 0 and some axis dimension is at
most 2*Margin, create_labels raises no error; it silently returns a
full-shape supervoxel volume that is identically zero (the cropped
arrays are empty). -/
theorem c3_amended (o : WshedOptions) (b : Vol Int) (h : 0 < o.border_size)
    (hdim : b.shape.d0 ≤ 2 * o.border_size ∨ b.shape.d1 ≤ 2 * o.border_size ∨
            b.shape.d2 ≤ 2 * o.border_size) :
    (createLabels o b).shape = b.shape ∧ ∀ v ∈ (createLabels o b).data, v = 0 := by
  unfold createLabels
  rw [if_pos h]
  refine ⟨rfl, ?_⟩
  intro v hv
  simp only [uncrop] at hv
  rcases List.mem_map.1 hv with ⟨i, _, hfv⟩
  split at hfv
  case isTrue hcond =>
    exfalso
    obtain ⟨h1, h2, h3, h4, h5, h6⟩ := hcond
    rcases hdim with hd | hd | hd
    · revert h1 h2
      generalize i / (b.shape.d1 * b.shape.d2) = q
      intro h1 h2
      omega
    · revert h3 h4
      generalize (i % (b.shape.d1 * b.shape.d2)) / b.shape.d2 = q
      intro h3 h4
      omega
    · revert h5 h6
      generalize i % b.shape.d2 = q
      intro h5 h6
      omega
  case isFalse => exact hfv.symm

/-- Witness for the amended claim C3 at the concrete inputs oC3, bC3. -/
theorem c3_amended_witness :
    (createLabels oC3 bC3).shape = bC3.shape ∧
    ∀ v ∈ (createLabels oC3 bC3).data, v = 0 :=
  c3_amended oC3 bC3 (by decide) (Or.inl (by decide))

/-- Claim C5: for every options record and boundary volume, the
supervoxel volume returned by the pipeline has the same 3-D shape as the
boundary volume (and its data holds one entry per voxel of that shape). -/
theorem c5_shape (o : WshedOptions) (b : Vol Int) :
    (createLabels o b).shape = b.shape ∧
    (createLabels o b).data.length = b.shape.size := by
  by_cases h : 0 < o.border_size
  · unfold createLabels
    rw [if_pos h]
    refine ⟨rfl, ?_⟩
    simp only [uncrop]
    rw [List.length_map, List.length_range]
  · unfold createLabels watershedInputs
    rw [if_neg h, if_neg h]
    exact ⟨rfl, by rw [watershed_data_length, seedGen_data_length]⟩

/-- Claim C10: the pipeline is deterministic: two runs of create_labels
on identical inputs yield identical supervoxel volumes (the embedding is
a pure function of the options record and the boundary volume). -/
theorem c10_deterministic (o1 o2 : WshedOptions) (b1 b2 : Vol Int)
    (ho : o1 = o2) (hb : b1 = b2) : createLabels o1 b1 = createLabels o2 b2 := by
  rw [ho, hb]

/-- Witness for claim C10 at the concrete inputs oC1, bFull. -/
theorem c10_deterministic_witness :
    createLabels oC1 bFull = createLabels oC1 bFull :=
  c10_deterministic oC1 oC1 bFull bFull rfl rfl

theorem volGet_uncrop (full : Shape) (svc : Vol Nat) (m z x y : Nat)
    (hz : z < full.d0) (hx : x < full.d1) (hy : y < full.d2) :
    volGet (uncrop full svc m) z x y =
      if m ≤ z ∧ z + m < full.d0 ∧ m ≤ x ∧ x + m < full.d1 ∧
         m ≤ y ∧ y + m < full.d2 then
        lget svc.data
          (((z - m) * (full.d1 - 2 * m) + (x - m)) * (full.d2 - 2 * m) + (y - m))
      else 0 := by
  have hi : fidx full z x y < full.size := fidx_lt_size hz hx hy
  simp only [volGet, uncrop]
  rw [lget_range_map _ _ _ hi]
  rw [unflat_z z hx hy, unflat_x z hx hy, unflat_y z x hy]

/-- Claim C4: when Margin > 0, the returned supervoxel volume is 0 at
every voxel within Margin of a face, and at every interior voxel equals
the watershed label computed on the cropped boundary volume (with seeds
regenerated on that crop) at the same relative offset. -/
theorem c4_border_composite (o : WshedOptions) (b : Vol Int) (z x y : Nat)
    (h : 0 < o.border_size) (hz : z < b.shape.d0) (hx : x < b.shape.d1)
    (hy : y < b.shape.d2) :
    volGet (createLabels o b) z x y =
      if o.border_size ≤ z ∧ z + o.border_size < b.shape.d0 ∧
         o.border_size ≤ x ∧ x + o.border_size < b.shape.d1 ∧
         o.border_size ≤ y ∧ y + o.border_size < b.shape.d2 then
        volGet (watershed (cropB b o.border_size)
                  (seedGen (cropB b o.border_size) o.seed_val o.seed_size))
          (z - o.border_size) (x - o.border_size) (y - o.border_size)
      else 0 := by
  unfold createLabels watershedInputs
  rw [if_pos h, if_pos h]
  rw [volGet_uncrop _ _ _ _ _ _ hz hx hy]
  rfl

/-- Witness for claim C4 at the interior voxel (1,1,1) of a 3x3x3 volume
with Margin 1. -/
theorem c4_border_composite_witness :
    volGet (createLabels oW4 bW4) 1 1 1 =
      if oW4.border_size ≤ 1 ∧ 1 + oW4.border_size < bW4.shape.d0 ∧
         oW4.border_size ≤ 1 ∧ 1 + oW4.border_size < bW4.shape.d1 ∧
         oW4.border_size ≤ 1 ∧ 1 + oW4.border_size < bW4.shape.d2 then
        volGet (watershed (cropB bW4 oW4.border_size)
                  (seedGen (cropB bW4 oW4.border_size) oW4.seed_val oW4.seed_size))
          (1 - oW4.border_size) (1 - oW4.border_size) (1 - oW4.border_size)
      else 0 :=
  c4_border_composite oW4 bW4 1 1 1 (by decide) (by decide) (by decide) (by decide)

/-- Claim C6: an all-zero seed volume makes the watershed a no-op: the
initial queue is empty, the output equals the seed data, and every
output voxel is 0; no error arises (the model is total). -/
theorem c6_zero_seeds (b : Vol Int) (seeds : Vol Nat)
    (h : ∀ v ∈ seeds.data, v = 0) :
    (watershed b seeds).data = seeds.data ∧
    ∀ v ∈ (watershed b seeds).data, v = 0 := by
  have hraw : rawInit b seeds.data = [] := by
    apply collect_eq_nil
    intro c hc
    exact if_neg (fun hne => hne (lget_zero_of_all seeds.data h _))
  have hdata : (watershed b seeds).data = seeds.data := by
    unfold watershed
    rw [hraw]
    show wshedLoop b (wshedFuel b.shape) seeds.data (number 0 []) ([] : List Entry).length
        = seeds.data
    cases hf : wshedFuel b.shape with
    | zero => rfl
    | succ n => rfl
  exact ⟨hdata, by rw [hdata]; exact h⟩

/-- Witness for claim C6 at a concrete boundary volume with all-zero
seeds. -/
theorem c6_zero_seeds_witness :
    (watershed bW6 sW6).data = sW6.data ∧ ∀ v ∈ (watershed bW6 sW6).data, v = 0 :=
  c6_zero_seeds bW6 sW6 (by decide)

theorem wshedLoop_preserve (b : Vol Int) :
    ∀ (fuel : Nat) (labels : List Nat) (q : List Entry) (seq i : Nat),
      lget labels i ≠ 0 → lget (wshedLoop b fuel labels q seq) i = lget labels i
  | 0, labels, q, seq, i, _ => rfl
  | fuel + 1, labels, q, seq, i, h => by
      rw [wshedLoop]
      cases hpm : popMin q with
      | none => rfl
      | some pr =>
        obtain ⟨e, rest⟩ := pr
        dsimp only
        by_cases h0 : lget labels e.pos = 0
        · rw [if_pos h0]
          have hne : i ≠ e.pos := fun he => h (he ▸ h0)
          have hkeep : lget (labels.set e.pos e.lab) i = lget labels i :=
            lget_set_ne labels e.pos i e.lab hne
          rw [wshedLoop_preserve b fuel _ _ _ i (by rw [hkeep]; exact h), hkeep]
        · rw [if_neg h0]
          exact wshedLoop_preserve b fuel labels rest seq i h

/-- Claim C7: the priority flood never rewrites an already-assigned
voxel (first conjunct, an invariant of the loop itself), and therefore
every voxel carrying a positive label in the seed volume carries the
same label in the watershed output (second conjunct). -/
theorem c7_seed_preserved :
    (∀ (b : Vol Int) (fuel : Nat) (labels : List Nat) (q : List Entry) (seq i : Nat),
        lget labels i ≠ 0 → lget (wshedLoop b fuel labels q seq) i = lget labels i) ∧
    (∀ (b : Vol Int) (seeds : Vol Nat), seeds.shape = b.shape →
        ∀ i : Nat, 0 < lget seeds.data i →
          lget (watershed b seeds).data i = lget seeds.data i) := by
  refine ⟨fun b => wshedLoop_preserve b, fun b seeds _ i hpos => ?_⟩
  exact wshedLoop_preserve b (wshedFuel b.shape) seeds.data
    (number 0 (rawInit b seeds.data)) (rawInit b seeds.data).length i (by omega)

/-- Witness for claim C7: the seeded voxel 0 of sW7 keeps its label. -/
theorem c7_seed_preserved_witness :
    0 < lget sW7.data 0 ∧ lget (watershed bW7 sW7).data 0 = lget sW7.data 0 :=
  ⟨by decide, c7_seed_preserved.2 bW7 sW7 rfl 0 (by decide)⟩

theorem mem_distinctLabels (v : Vol Nat) (x : Nat) :
    x ∈ distinctLabels v ↔ x ∈ v.data ∧ x ≠ 0 := by
  simp [distinctLabels, List.mem_filter]

theorem mem_distinctLabels_removeSmall (v : Vol Nat) (t : Int) (x : Nat) :
    x ∈ distinctLabels (removeSmall v t) ↔
      x ∈ v.data ∧ x ≠ 0 ∧ ¬((v.data.count x : Int) < t) := by
  rw [mem_distinctLabels]
  simp only [removeSmall]
  constructor
  · rintro ⟨hmem, hx0⟩
    rcases List.mem_map.1 hmem with ⟨a, ha, hfa⟩
    by_cases hc : a ≠ 0 ∧ (v.data.count a : Int) < t
    · rw [if_pos hc] at hfa
      exact absurd hfa.symm hx0
    · rw [if_neg hc] at hfa
      subst hfa
      exact ⟨ha, hx0, fun hlt => hc ⟨hx0, hlt⟩⟩
  · rintro ⟨hmem, hx0, hcnt⟩
    refine ⟨List.mem_map.2 ⟨x, hmem, ?_⟩, hx0⟩
    rw [if_neg]
    rintro ⟨_, hlt⟩
    exact hcnt hlt

theorem distinct_removeSmall_mono (v : Vol Nat) {t1 t2 : Int} (h : t1 ≤ t2) :
    distinctLabels (removeSmall v t2) ⊆ distinctLabels (removeSmall v t1) := by
  intro x hx
  rw [mem_distinctLabels_removeSmall] at hx ⊢
  exact ⟨hx.1, hx.2.1, fun hlt => hx.2.2 (by omega)⟩

theorem distinct_removeSmall_subset (v : Vol Nat) (t : Int) :
    distinctLabels (removeSmall v t) ⊆ distinctLabels v := by
  intro x hx
  rw [mem_distinctLabels_removeSmall] at hx
  rw [mem_distinctLabels]
  exact ⟨hx.1, hx.2.1⟩

/-- Claim C8: for a fixed boundary volume and fixed seed_val, the number
of distinct positive labels in the generated seed volume never increases
as seed_size rises. -/
theorem c8_seed_monotone (b : Vol Int) (sv s1 s2 : Int) (h : s1 ≤ s2) :
    distinctCount (seedGen b sv s2) ≤ distinctCount (seedGen b sv s1) := by
  unfold distinctCount seedGen
  by_cases h1 : 0 < s1
  · rw [if_pos h1, if_pos (by omega : (0 : Int) < s2)]
    exact Finset.card_le_card (distinct_removeSmall_mono _ h)
  · rw [if_neg h1]
    by_cases h2 : 0 < s2
    · rw [if_pos h2]
      exact Finset.card_le_card (distinct_removeSmall_subset _ _)
    · rw [if_neg h2]

/-- Witness for claim C8 at the concrete volume bFull with seed sizes
1 <= 2. -/
theorem c8_seed_monotone_witness :
    distinctCount (seedGen bFull 0 2) ≤ distinctCount (seedGen bFull 0 1) :=
  c8_seed_monotone bFull 0 1 2 (by decide)

/-- Claim C9: the small-component filter zeroes a voxel exactly when its
positive label occurs strictly fewer times than the threshold, and
otherwise leaves it with its original label identifier (first conjunct);
a threshold of 0 or negative means the filter is not applied and the
seed volume is the raw connected-component labeling (second conjunct). -/
theorem c9_small_filter :
    (∀ (v : Vol Nat) (t : Int) (i : Nat), i < v.data.length →
        lget (removeSmall v t).data i =
          if lget v.data i ≠ 0 ∧ (v.data.count (lget v.data i) : Int) < t then 0
          else lget v.data i) ∧
    (∀ (b : Vol Int) (sv ss : Int), ss ≤ 0 →
        seedGen b sv ss = ⟨b.shape, ccl b.shape (bmask b sv)⟩) := by
  constructor
  · intro v t i hi
    simp only [removeSmall]
    rw [lget_map _ _ _ hi]
  · intro b sv ss hss
    rw [seedGen, if_neg (by omega : ¬ (0 : Int) < ss)]

/-- Witness for claim C9: filtering vW9 with threshold 2 keeps the
size-2 component of voxel 0. -/
theorem c9_small_filter_witness :
    lget (removeSmall vW9 2).data 0 =
      if lget vW9.data 0 ≠ 0 ∧ (vW9.data.count (lget vW9.data 0) : Int) < 2 then 0
      else lget vW9.data 0 :=
  c9_small_filter.1 vW9 2 0 (by decide)
